import Mathlib

/-!
Verification development for the panorama reality viewer
(`src/panorama-reality/reality.ts`).

The TypeScript module is embedded shallowly:

* JavaScript numbers are modelled as `ℚ` (exact rational arithmetic; the
  double constant `Math.PI` is embedded as the exact rational value of the
  IEEE-754 double closest to pi).
* The Cesium pose/orientation library, the THREE renderer and the Argon host
  are external collaborators; only the values that flow through the module's
  own logic are modelled (quaternion multiplication is embedded with Cesium's
  component formula, trigonometric evaluations arrive as oracle inputs).
* The mutable module-level state (`panoramas`, `currentPano`, the two pano
  spheres, `currentSphere`, the virtual eye anchor and the TWEEN registry) is
  collected in a `PanoState` record, and each command handler becomes a
  function `PanoState → Except PanoError PanoState` mirroring the source's
  statement order; a thrown JS error is an `Except.error` (the source throws
  before any mutation, so an error carries no partial state).
* Per-frame work (the `frameStateEvent` listener) becomes `frameTick`, a
  function of the frame inputs; the unguarded property access
  `currentPano.entity` on an unset `currentPano` is modelled as a JS
  `TypeError` result.
-/

namespace PanoReality

/-! ### Cesium quaternion fragment

`Quaternion.multiply(left, right)` from Cesium, used at line 137 of the
source.  Components follow Cesium's `Quaternion.multiply`. -/

structure Quat where
  x : ℚ
  y : ℚ
  z : ℚ
  w : ℚ
deriving DecidableEq, Repr

def qmul (l r : Quat) : Quat :=
  { x := l.w * r.x + l.x * r.w + l.y * r.z - l.z * r.y
    y := l.w * r.y - l.x * r.z + l.y * r.w + l.z * r.x
    z := l.w * r.z + l.x * r.y - l.y * r.x + l.z * r.w
    w := l.w * r.w - l.x * r.x - l.y * r.y - l.z * r.z }

/-- Cesium `Quaternion.fromAxisAngle(Cartesian3.UNIT_Y, θ)` yields
`(0, sin(θ/2), 0, cos(θ/2))`.  The trigonometric evaluation happens inside
Cesium (an external collaborator); the embedding receives the pair
`(sin(θ/2), cos(θ/2))` from an oracle and builds the quaternion. -/
def fromAxisAngleUnitY (halfSin halfCos : ℚ) : Quat :=
  { x := 0, y := halfSin, z := 0, w := halfCos }

/-! ### Field of view fusion (source lines 114–128)

`Math.PI` is the IEEE-754 double closest to pi; its exact rational value is
`884279719003555 / 2^48`. -/

def mathPI : ℚ := 884279719003555 / 281474976710656

/-- Lower clamp bound `Math.PI/8` (lines 121 and 127). -/
def fovMin : ℚ := mathPI / 8

/-- Upper clamp bound `Math.PI - Math.PI/8` (lines 121 and 127). -/
def fovMax : ℚ := mathPI - mathPI / 8

/-- One wheel/pinch adjustment:
`Math.min(Math.max(fov - diff * 0.02, Math.PI/8), Math.PI-Math.PI/8)`
(lines 121 and 127; `0.02 = 1/50`). -/
def applyZoom (fov diff : ℚ) : ℚ :=
  min (max (fov - diff * (2 / 100)) fovMin) fovMax

/-- The wheel movement used at line 120: `wheelMovement.endPosition.y`,
present when `aggregator.isMoving(WHEEL)`. -/
abbrev WheelInput := Option ℚ

/-- The pinch movement used at line 126:
`(distance.startPosition.y, distance.endPosition.y)`, present when
`aggregator.isMoving(PINCH)`. -/
abbrev PinchInput := Option (ℚ × ℚ)

/-- Lines 118–128: starting from the current fov
(`app.view.subviews[0].frustum.fov`, line 116), apply the wheel adjustment if
a wheel event is active, then the pinch adjustment if a pinch event is
active. -/
def fuseFov (fov : ℚ) (wheel : WheelInput) (pinch : PinchInput) : ℚ :=
  let f1 := match wheel with
    | some endY => applyZoom fov endY
    | none => fov
  match pinch with
  | some p => applyZoom f1 (p.2 - p.1)
  | none => f1

/-! ### Frame state handler (source lines 96–160) -/

/-- The parameters of a perspective projection.  The source round-trips a
4×4 matrix through Cesium's `PerspectiveFrustum`
(`decomposePerspectiveProjectionMatrix` at line 115, `frustum.projectionMatrix`
at line 144); both directions are Cesium's (external) and are lossless on
these four parameters, so a projection matrix is embedded as the parameter
quadruple itself. -/
structure Frustum where
  fov : ℚ
  aspect : ℚ
  near : ℚ
  far : ℚ
deriving DecidableEq, Repr

/-- One serialized subview of the host frame state: its projection matrix and
its own viewport dimensions (used at line 142). -/
structure Subview where
  projection : Frustum
  viewportWidth : ℚ
  viewportHeight : ℚ
deriving DecidableEq, Repr

/-- The host frame state consumed by the listener: the strict flag and the
subview list.  The host always supplies at least one subview (one in
monocular mode, two in stereo), kept as `subview0 :: restSubviews`. -/
structure FrameState where
  strict : Bool
  subview0 : Subview
  restSubviews : List Subview
deriving DecidableEq, Repr

def FrameState.subviews (fs : FrameState) : List Subview :=
  fs.subview0 :: fs.restSubviews

/-- The horizontal drag movement used at line 134
(`dragMovement.startPosition.x`, `dragMovement.endPosition.x`). -/
structure DragMove where
  startX : ℚ
  endX : ℚ
deriving DecidableEq, Repr

/-- The gesture aggregator's answers for one tick: each field is `some` when
`aggregator.isMoving` holds for that `CameraEventType`. -/
structure Aggregator where
  wheel : WheelInput
  pinch : PinchInput
  drag : Option DragMove
deriving DecidableEq, Repr

/-- A JavaScript runtime error escaping the listener (reading a property of
`undefined`). -/
inductive JsError
  | typeError
deriving DecidableEq, Repr

/-- What one tick publishes through `submitFrameState` (line 159): the
per-subview projection matrices and the virtual eye orientation. -/
structure TickResult where
  projections : List Frustum
  orientation : Quat
deriving DecidableEq, Repr

/-- Line 142–143: `aspect = s.viewport.width / s.viewport.height`, replaced
by `1` unless it is finite and nonzero.  Over the reals this fallback fires
exactly when the width or the height is zero (height `0` gives an infinite or
NaN quotient, width `0` with nonzero height gives `0`). -/
def computeAspect (w h : ℚ) : ℚ :=
  if w ≠ 0 ∧ h ≠ 0 then w / h else 1

/-- The `frameStateEvent` listener, lines 96–160.

Inputs beyond the frame state:
* `currentPano?` — whether the module-level `currentPano` variable is set
  (it starts `undefined`, line 63) together with an identifier of its entity;
* `eyeOri` — the virtual eye orientation entering the tick;
* `currentFov` — `app.view.subviews[0].frustum.fov` (line 116);
* `viewWidth` — `app.view.viewport.width` (line 134);
* `devOri` — `Argon.getEntityOrientation(...)` (lines 101–106), absent when
  the device has no orientation sensor;
* `agg` — the gesture aggregator's state for this tick;
* `relOri` — the value Cesium's (external)
  `getEntityOrientationInReferenceFrame(virtualEye, time, currentPano.entity)`
  returns at line 132;
* `halfTrig` — oracle mapping an angle `θ` to `(sin(θ/2), cos(θ/2))`,
  standing for Cesium's internal trigonometry in `fromAxisAngle`.

The handler aborts with a `TypeError` exactly where the source would: the
property access `currentPano.entity` at line 132 when `currentPano` is
`undefined`. -/
def frameTick (currentPano? : Option ℕ) (eyeOri : Quat) (currentFov : ℚ)
    (viewWidth : ℚ) (fs : FrameState) (devOri : Option Quat) (agg : Aggregator)
    (relOri : Quat) (halfTrig : ℚ → ℚ × ℚ) : Except JsError TickResult :=
  -- lines 108–112: with a device orientation the virtual eye follows it
  let eye1 := match devOri with
    | some q => q
    | none => eyeOri
  if fs.strict then
    -- strict mode skips lines 115–145: the host projections pass through
    .ok { projections := fs.subviews.map (fun s => s.projection)
          orientation := eye1 }
  else
    -- line 115: decompose subviews[0].projectionMatrix into `frustum`
    let fr0 := fs.subview0.projection
    -- lines 116–128: override the fov and fuse wheel/pinch input
    let fr := { fr0 with fov := fuseFov currentFov agg.wheel agg.pinch }
    -- lines 130–139: manual drag steering when no device orientation
    let oriRes : Except JsError Quat :=
      match devOri, agg.drag with
      | none, some dm =>
        match currentPano? with
        | none => .error .typeError   -- `currentPano.entity` on undefined
        | some _ =>
          let angle := fr.fov * (dm.endX - dm.startX) / viewWidth
          let sc := halfTrig angle
          let dragYaw := fromAxisAngleUnitY sc.1 sc.2
          .ok (qmul relOri dragYaw)   -- Quaternion.multiply(currentOrientation, dragYaw)
      | _, _ => .ok eye1
    match oriRes with
    | .error e => .error e
    | .ok ori =>
      -- lines 141–145: per-subview aspect, shared fov/near/far from `frustum`
      .ok { projections := fs.subviews.map (fun s =>
              { fr with aspect := computeAspect s.viewportWidth s.viewportHeight })
            orientation := ori }

/-! ### JS values and the `resolve` path lookup (source lines 321–326) -/

/-- The fragment of the JavaScript value universe reachable by `resolve`
starting from `TWEEN.Easing`: plain objects (finite string-keyed field lists)
and functions (identified by their dotted path).  Both are truthy in JS;
`undefined` is represented by `Option.none` around `JsVal`. -/
inductive JsVal
  | fn (id : String)
  | obj (fields : List (String × JsVal))

/-- Every object and every function is truthy; the falsy JS values
(`undefined`, `null`, `0`, `""`, `NaN`, `false`) are outside `JsVal`. -/
def jsTruthy : JsVal → Bool := fun _ => true

/-- Property read `v[k]`: a field lookup on an object, `undefined` on a
function (the easing functions own no nested properties used here). -/
def jsIndex : JsVal → String → Option JsVal
  | .obj fields, k => lookupField fields k
  | .fn _, _ => none
where lookupField : List (String × JsVal) → String → Option JsVal
  | [], _ => none
  | (k', v) :: rest, k => if k' = k then some v else lookupField rest k

/-- JavaScript `path.split('.')`. -/
def jsSplitDot (s : String) : List String :=
  go s.toList []
where go : List Char → List Char → List String
  | [], acc => [String.mk acc.reverse]
  | c :: rest, acc =>
    if c = '.' then String.mk acc.reverse :: go rest []
    else go rest (c :: acc)

/-- Lines 321–326:

```
function resolve(path, obj, safe=true) \x7b
    if (!path) return undefined;
    return path.split('.').reduce(function(prev, curr) \x7b
        return !safe ? prev[curr] : (prev ? prev[curr] : undefined)
    \x7d, obj || self)
\x7d
```

`path` is `transition.easing`, possibly `undefined`; the `!path` guard also
catches the empty string.  The reduction runs in safe mode (`safe = true`):
a falsy accumulator propagates `undefined`. -/
def resolve (path : Option String) (obj : JsVal) : Option JsVal :=
  match path with
  | none => none
  | some p =>
    if p = "" then none
    else (jsSplitDot p).foldl
      (fun prev curr => prev.bind (fun v => jsIndex v curr)) (some obj)

/-- The `TWEEN.Easing` namespace object from tween.js: eleven easing groups,
`Linear` owning only `None`, each of the others owning `In`, `Out`,
`InOut`. -/
def tweenEasing : JsVal :=
  .obj
    [ ("Linear", .obj [("None", .fn "Linear.None")])
    , ("Quadratic", .obj [("In", .fn "Quadratic.In"), ("Out", .fn "Quadratic.Out"),
        ("InOut", .fn "Quadratic.InOut")])
    , ("Cubic", .obj [("In", .fn "Cubic.In"), ("Out", .fn "Cubic.Out"),
        ("InOut", .fn "Cubic.InOut")])
    , ("Quartic", .obj [("In", .fn "Quartic.In"), ("Out", .fn "Quartic.Out"),
        ("InOut", .fn "Quartic.InOut")])
    , ("Quintic", .obj [("In", .fn "Quintic.In"), ("Out", .fn "Quintic.Out"),
        ("InOut", .fn "Quintic.InOut")])
    , ("Sinusoidal", .obj [("In", .fn "Sinusoidal.In"), ("Out", .fn "Sinusoidal.Out"),
        ("InOut", .fn "Sinusoidal.InOut")])
    , ("Exponential", .obj [("In", .fn "Exponential.In"), ("Out", .fn "Exponential.Out"),
        ("InOut", .fn "Exponential.InOut")])
    , ("Circular", .obj [("In", .fn "Circular.In"), ("Out", .fn "Circular.Out"),
        ("InOut", .fn "Circular.InOut")])
    , ("Elastic", .obj [("In", .fn "Elastic.In"), ("Out", .fn "Elastic.Out"),
        ("InOut", .fn "Elastic.InOut")])
    , ("Back", .obj [("In", .fn "Back.In"), ("Out", .fn "Back.Out"),
        ("InOut", .fn "Back.InOut")])
    , ("Bounce", .obj [("In", .fn "Bounce.In"), ("Out", .fn "Bounce.Out"),
        ("InOut", .fn "Bounce.InOut")])
    ]

/-- The value `TWEEN.Easing.Linear.None`, the default substituted at line 270. -/
def easingLinearNone : JsVal := .fn "Linear.None"

/-! ### The texture future (source lines 226–231, 243–248)

```
var texture = new Promise<THREE.Texture>((resolve)=>\x7b
    loader.load(pano.url, function ( texture ) \x7b
        texture.minFilter = THREE.LinearFilter;
        resolve(texture);
    \x7d);
\x7d);
```

`THREE.TextureLoader.load(url, onLoad, onProgress, onError)` invokes `onLoad`
when the fetch succeeds and `onError` (when one was provided) when it fails.
The source provides only `onLoad`, and the executor calls `resolve` from it;
`reject` is never taken and no `onError` handler exists. -/

/-- The eventual outcome of the texture fetch performed by the loader. -/
inductive LoadOutcome
  | success
  | failure
deriving DecidableEq, Repr

/-- Which settling call the executor performs for a given fetch outcome. -/
inductive SettleAction
  | resolveCall
  | rejectCall
  | noCall
deriving DecidableEq, Repr

/-- The executor's behavior: `onLoad` fires on success and calls `resolve`;
on failure no callback fires (no `onError` argument was passed), so the
executor never settles the promise. -/
def executorAction : LoadOutcome → SettleAction
  | .success => .resolveCall
  | .failure => .noCall

/-- The three terminal/observable states of a JS promise. -/
inductive PromiseState
  | pending
  | resolved
  | rejected
deriving DecidableEq, Repr

def promiseStateOf : SettleAction → PromiseState
  | .resolveCall => .resolved
  | .rejectCall => .rejected
  | .noCall => .pending

/-- The eventual state of the future returned from the `loadPanorama`
handler (`texture.then(()=>\x7b\x7d)`, line 247), as a function of the fetch
outcome.  `Promise.prototype.then` preserves resolution, rejection and
pendingness. -/
def texturePromiseState (o : LoadOutcome) : PromiseState :=
  promiseStateOf (executorAction o)

/-! ### Panorama registry and transition engine (source lines 48–80, 198–319) -/

/-- The `PanoramaInfo` command payload (lines 48–54).  JS numbers are `ℚ`,
optional fields are `Option`. -/
structure PanoramaInfo where
  url : String
  longitude : Option ℚ
  latitude : Option ℚ
  height : Option ℚ
  offsetDegrees : Option ℚ
deriving DecidableEq, Repr

/-- The geo-derived anchor of a registry entry: position and orientation set
on the entity at lines 214–223.  The position is
`Cartesian3.fromDegrees(pano.longitude, pano.latitude, pano.height || 0)`;
the orientation is `Transforms.headingPitchRollQuaternion(position, 0, 0, 0)`
(the local ENU frame at that position), both computed by Cesium (external),
so the anchor is embedded as the inputs handed to Cesium.  `latDeg` is
`Option` because the source can reach `fromDegrees` with `pano.latitude`
undefined (the guard at lines 212–213 never tests it). -/
structure Anchor where
  lonDeg : ℚ
  latDeg : Option ℚ
  hgtDeg : ℚ
deriving DecidableEq, Repr

/-- A registry entry (interface `Panorama`, lines 56–59): the stored info
fields, the derived entity and the texture handle.  `id` is the creation
serial number, standing for JS object identity: each `loadPanorama` call
builds a fresh entity, promise and entry object (lines 211, 226, 233–241),
distinct from every earlier one.  The texture handle shares the entry's
`id`.  `anchor` is `some` exactly when lines 214–223 ran. -/
structure Panorama where
  id : ℕ
  url : String
  longitude : Option ℚ
  latitude : Option ℚ
  height : Option ℚ
  offsetDegrees : Option ℚ
  anchor : Option Anchor
deriving DecidableEq, Repr

/-- The state of a `THREE.MeshBasicMaterial` as touched by the source:
the bound texture (`map`, by texture handle id), `opacity` and
`needsUpdate`. -/
structure MaterialState where
  map : Option ℕ
  opacity : ℚ
  needsUpdate : Bool
deriving DecidableEq, Repr

/-- One pano sphere mesh: its material, yaw rotation, scale and render
order; `pendingBindings` records the texture handles whose `then` callbacks
(line 293–296) will bind to this sphere's material once they resolve. -/
structure SphereState where
  material : MaterialState
  rotationY : ℚ
  scale : ℚ × ℚ × ℚ
  renderOrder : ℕ
  pendingBindings : List ℕ
deriving DecidableEq, Repr

/-- One `TWEEN.Tween` created at lines 313–316: it animates the material of
sphere `targetSphere` to opacity `toOpacity` over `duration`
(tween.js substitutes its own default when the duration is `undefined`)
with the resolved `easing` value. -/
structure TweenState where
  targetSphere : ℕ
  toOpacity : ℚ
  duration : Option ℚ
  easing : JsVal

/-- The module-level mutable state: `panoramas` (line 62, a JS `Map`
embedded as an association list with unique keys), `currentPano` (line 63,
initially `undefined`), the two pano spheres and `currentSphere`
(lines 67–75), the virtual eye's position anchor (the entity id of the
panorama it was last re-anchored to at line 280), the id counter standing
for object identity, and the global tween registry (`TWEEN`). -/
structure PanoState where
  panoramas : List (String × Panorama)
  currentPano : Option Panorama
  nextId : ℕ
  sphere0 : SphereState
  sphere1 : SphereState
  currentSphere : ℕ
  eyeAnchor : Option ℕ
  tweens : List TweenState

/-- JS `Map.prototype.get`. -/
def mapGet (m : List (String × Panorama)) (k : String) : Option Panorama :=
  match m with
  | [] => none
  | (k', v) :: rest => if k' = k then some v else mapGet rest k

/-- JS `Map.prototype.set`: overwrite in place, else append. -/
def mapSet (m : List (String × Panorama)) (k : String) (v : Panorama) :
    List (String × Panorama) :=
  match m with
  | [] => [(k, v)]
  | (k', v') :: rest => if k' = k then (k, v) :: rest else (k', v') :: mapSet rest k v

/-- JS `Map.prototype.delete`: remove the entry when present. -/
def mapDelete (m : List (String × Panorama)) (k : String) :
    List (String × Panorama) :=
  match m with
  | [] => []
  | (k', v') :: rest => if k' = k then rest else (k', v') :: mapDelete rest k

/-- Errors thrown synchronously by the command handlers:
`ValidationError` (missing command input, lines 207 and 272–273) and
`NotFoundError` (unknown panorama, line 277). -/
inductive PanoError
  | validation (msg : String)
  | notFound (url : String)
deriving DecidableEq, Repr

/-- The `loadPanorama` handler, lines 205–248.

* Line 207: throws when `pano.url` is falsy.
* Lines 211–224: builds the entity; the guard at lines 212–213 reads
  `defined(pano.longitude) && defined(pano.longitude)` — both conjuncts test
  `longitude`, so the anchor branch runs iff `longitude` alone is defined,
  and `latitude` flows into `Cartesian3.fromDegrees` unchecked.
* Lines 226–231: starts the texture load (the handle carries the fresh id;
  its eventual state is `texturePromiseState` of the fetch outcome).
* Lines 233–241: inserts/overwrites the entry keyed by `pano.url`. -/
def loadPanorama (st : PanoState) (pano : PanoramaInfo) :
    Except PanoError PanoState :=
  if pano.url = "" then
    .error (.validation "Expected an equirectangular image url!")
  else
    let anchor : Option Anchor :=
      match pano.longitude with
      | some lon =>
        some { lonDeg := lon, latDeg := pano.latitude, hgtDeg := pano.height.getD 0 }
      | none => none
    let entry : Panorama :=
      { id := st.nextId
        url := pano.url
        longitude := pano.longitude
        latitude := pano.latitude
        height := pano.height
        offsetDegrees := pano.offsetDegrees
        anchor := anchor }
    .ok { st with
            panoramas := mapSet st.panoramas pano.url entry
            nextId := st.nextId + 1 }

/-- The `deletePanorama` handler, lines 249–251: `panoramas.delete(url)`,
a no-op when the url is absent; never throws. -/
def deletePanorama (st : PanoState) (url : String) : PanoState :=
  { st with panoramas := mapDelete st.panoramas url }

/-- The `transition` command field (lines 257–260). -/
structure Transition where
  easing : Option String
  duration : Option ℚ

/-- The `showPanorama` command payload (lines 262–265); `transition` may be
absent (`options.transition || \x7b\x7d` at line 269). -/
structure ShowPanoramaOptions where
  url : String
  transition : Option Transition

def emptyTransition : Transition := { easing := none, duration := none }

/-- The constant `CesiumMath.RADIANS_PER_DEGREE`, used at line 299 (embedded through the
exact rational for the double `Math.PI`). -/
def RADIANS_PER_DEGREE : ℚ := mathPI / 180

/-- Read pano sphere `i` (`panoSpheres[i]`; `currentSphere` only ever holds
`0` or `1`). -/
def getSphere (st : PanoState) (i : ℕ) : SphereState :=
  if i = 0 then st.sphere0 else st.sphere1

/-- Write pano sphere `i`. -/
def setSphere (st : PanoState) (i : ℕ) (s : SphereState) : PanoState :=
  if i = 0 then { st with sphere0 := s } else { st with sphere1 := s }

/-- The function `showPanorama`, lines 267–319, in statement order:

* line 270: `easing = resolve(transition.easing, TWEEN.Easing) || Linear.None`;
* line 272: throws when `url` is falsy;
* line 273: `if (!easing) throw 'Unknown easing'` — after the line-270
  default, `easing` is always a function or namespace object, hence truthy;
* lines 276–277: registry lookup, throws `NotFoundError` when absent;
* line 278: `currentPano = panoIn`;
* line 280: re-anchors the virtual eye to `currentPano.entity` at zero;
* lines 283–285: slot toggle — outgoing sphere is `panoSpheres[currentSphere]`
  before the toggle, incoming is the other one after `currentSphere++ %= 2`;
* lines 290–296: reset the incoming material and register the texture-future
  binding;
* line 299: incoming sphere yaw from `offsetDegrees`;
* lines 304–309: scales `(-1,1,1)` in / `(-0.9,0.9,0.9)` out, render order
  `0` in / `1` out;
* lines 312–318: `TWEEN.removeAll()`, then one new tween fading the outgoing
  material to opacity `0` over `transition.duration` with `easing`, and the
  outgoing opacity reset to `1`. -/
def showPanorama (st : PanoState) (options : ShowPanoramaOptions) :
    Except PanoError PanoState :=
  let url := options.url
  let transition := options.transition.getD emptyTransition
  let easing := (resolve transition.easing tweenEasing).getD easingLinearNone
  if url = "" then .error (.validation "Expected a url")
  else if jsTruthy easing = false then
    .error (.validation "Unknown easing")
  else
    match mapGet st.panoramas url with
    | none => .error (.notFound url)
    | some panoIn =>
      let st1 := { st with currentPano := some panoIn, eyeAnchor := some panoIn.id }
      let outIdx := st1.currentSphere
      let newCur := (st1.currentSphere + 1) % 2
      let st2 := { st1 with currentSphere := newCur }
      let inIdx := newCur
      let sIn := getSphere st2 inIdx
      let sIn' :=
        { sIn with
            material := { map := none, opacity := 1, needsUpdate := true }
            pendingBindings := sIn.pendingBindings ++ [panoIn.id]
            rotationY := (panoIn.offsetDegrees.getD 0) * RADIANS_PER_DEGREE
            scale := (-1, 1, 1)
            renderOrder := 0 }
      let st3 := setSphere st2 inIdx sIn'
      let sOut := getSphere st3 outIdx
      let sOut' :=
        { sOut with
            scale := (-(9 / 10), 9 / 10, 9 / 10)
            renderOrder := 1
            material := { sOut.material with opacity := 1, needsUpdate := true } }
      let st4 := setSphere st3 outIdx sOut'
      let tw : TweenState :=
        { targetSphere := outIdx
          toOpacity := 0
          duration := transition.duration
          easing := easing }
      .ok { st4 with tweens := [tw] }

/-- The three remote commands of the protocol (lines 204–255).
(`show` is a Lean keyword, so the third constructor carries a prime.) -/
inductive Cmd
  | load (info : PanoramaInfo)
  | delete (url : String)
  | show' (options : ShowPanoramaOptions)

/-- A thrown handler error leaves the module state as it was (both handlers
throw before their first mutation). -/
def stepResult (r : Except PanoError PanoState) (st : PanoState) : PanoState :=
  match r with
  | .ok st' => st'
  | .error _ => st

def step (st : PanoState) (c : Cmd) : PanoState :=
  match c with
  | .load info => stepResult (loadPanorama st info) st
  | .delete url => deletePanorama st url
  | .show' options => stepResult (showPanorama st options) st

def run (st : PanoState) (cs : List Cmd) : PanoState :=
  cs.foldl step st

/-- A fresh `MeshBasicMaterial` with `transparent = true` (lines 70–72):
no texture, opacity `1`, clean. -/
def initMaterial : MaterialState :=
  { map := none, opacity := 1, needsUpdate := false }

/-- A fresh pano sphere mesh (lines 66–74). -/
def initSphere : SphereState :=
  { material := initMaterial
    rotationY := 0
    scale := (1, 1, 1)
    renderOrder := 0
    pendingBindings := [] }

/-- The module state right after setup: empty registry, unset
`currentPano`, `currentSphere = 0` (line 75), no eye anchor, no tweens. -/
def panoInit : PanoState :=
  { panoramas := []
    currentPano := none
    nextId := 0
    sphere0 := initSphere
    sphere1 := initSphere
    currentSphere := 0
    eyeAnchor := none
    tweens := [] }

/-! ### Trace predicates for the registry invariant -/

/-- The command does not delete the url of the currently shown panorama
(the side condition of the registry invariant claim). -/
def noDeleteCmdB (st : PanoState) (c : Cmd) : Bool :=
  match c, st.currentPano with
  | .delete u, some p => p.url != u
  | _, _ => true

def noDeleteTraceB : PanoState → List Cmd → Bool
  | _, [] => true
  | st, c :: cs => noDeleteCmdB st c && noDeleteTraceB (step st c) cs

/-- The command neither deletes nor re-registers the url of the currently
shown panorama. -/
def safeCmdB (st : PanoState) (c : Cmd) : Bool :=
  match c, st.currentPano with
  | .delete u, some p => p.url != u
  | .load i, some p => p.url != i.url
  | _, _ => true

def safeTraceB : PanoState → List Cmd → Bool
  | _, [] => true
  | st, c :: cs => safeCmdB st c && safeTraceB (step st c) cs

/-- The current-panorama pointer, when set, is the very entry the registry
stores under its url. -/
def currentMatchesRegistryB (st : PanoState) : Bool :=
  match st.currentPano with
  | none => true
  | some p => decide (mapGet st.panoramas p.url = some p)

/-- Every registry binding stores an entry whose `url` field equals its
key. -/
def KeyInvM (m : List (String × Panorama)) : Prop :=
  ∀ kv ∈ m, (kv.2).url = kv.1

/-- The propositional form of `currentMatchesRegistryB`. -/
def CurInv (st : PanoState) : Prop :=
  ∀ p, st.currentPano = some p → mapGet st.panoramas p.url = some p

/-! ### Association list lemmas -/

theorem mapGet_mem (m : List (String × Panorama)) (k : String) (e : Panorama)
    (h : mapGet m k = some e) : (k, e) ∈ m := by
  induction m with
  | nil => simp [mapGet] at h
  | cons kv rest ih =>
    rw [mapGet] at h
    split at h
    · rename_i heq
      injection h with h2
      subst h2
      subst heq
      simp
    · exact List.mem_cons_of_mem _ (ih h)

theorem mem_mapSet (m : List (String × Panorama)) (k : String) (v : Panorama)
    (kv : String × Panorama) (h : kv ∈ mapSet m k v) : kv = (k, v) ∨ kv ∈ m := by
  induction m with
  | nil => simp [mapSet] at h; simp [h]
  | cons kv' rest ih =>
    rw [mapSet] at h
    split at h
    · rcases List.mem_cons.mp h with h | h
      · exact Or.inl h
      · exact Or.inr (List.mem_cons_of_mem _ h)
    · rcases List.mem_cons.mp h with h | h
      · exact Or.inr (h ▸ List.mem_cons_self _ _)
      · rcases ih h with h | h
        · exact Or.inl h
        · exact Or.inr (List.mem_cons_of_mem _ h)

theorem mem_mapDelete (m : List (String × Panorama)) (k : String)
    (kv : String × Panorama) (h : kv ∈ mapDelete m k) : kv ∈ m := by
  induction m with
  | nil => simp [mapDelete] at h
  | cons kv' rest ih =>
    rw [mapDelete] at h
    split at h
    · exact List.mem_cons_of_mem _ h
    · rcases List.mem_cons.mp h with h | h
      · exact h ▸ List.mem_cons_self _ _
      · exact List.mem_cons_of_mem _ (ih h)

theorem mapGet_mapSet_ne (m : List (String × Panorama)) (k k' : String)
    (v : Panorama) (h : k ≠ k') : mapGet (mapSet m k v) k' = mapGet m k' := by
  induction m with
  | nil => simp [mapSet, mapGet, h]
  | cons kv rest ih =>
    rw [mapSet]
    split
    · rename_i heq
      rw [mapGet, mapGet, if_neg h, if_neg (heq ▸ h)]
    · rw [mapGet, mapGet]
      split
      · rfl
      · exact ih

theorem mapGet_mapDelete_ne (m : List (String × Panorama)) (k k' : String)
    (h : k ≠ k') : mapGet (mapDelete m k) k' = mapGet m k' := by
  induction m with
  | nil => simp [mapDelete]
  | cons kv rest ih =>
    rw [mapDelete]
    split
    · rename_i heq
      rw [mapGet, if_neg (heq ▸ h)]
    · rw [mapGet, mapGet]
      split
      · rfl
      · exact ih

/-! ### Structural lemmas about the handlers -/

theorem setSphere_panoramas (st : PanoState) (i : ℕ) (s : SphereState) :
    (setSphere st i s).panoramas = st.panoramas := by
  unfold setSphere; split <;> rfl

theorem setSphere_currentPano (st : PanoState) (i : ℕ) (s : SphereState) :
    (setSphere st i s).currentPano = st.currentPano := by
  unfold setSphere; split <;> rfl

/-- A successful `showPanorama` leaves the registry untouched and points
`currentPano` at the entry the registry lookup returned. -/
theorem showPanorama_ok_inv (st st' : PanoState) (o : ShowPanoramaOptions)
    (h : showPanorama st o = .ok st') :
    st'.panoramas = st.panoramas ∧
      ∃ p, mapGet st.panoramas o.url = some p ∧ st'.currentPano = some p := by
  unfold showPanorama at h
  simp only [jsTruthy] at h
  split at h
  · exact absurd h (by simp)
  · split at h
    · exact absurd h (by simp)
    · split at h
      · exact absurd h (by simp)
      · rename_i panoIn hget
        injection h with h'
        subst h'
        refine ⟨?_, panoIn, hget, ?_⟩
        · rw [setSphere_panoramas, setSphere_panoramas]
        · rw [setSphere_currentPano, setSphere_currentPano]

/-- A successful `loadPanorama` keeps `currentPano` and overwrites exactly
the binding at `pano.url` with an entry whose `url` field is `pano.url`. -/
theorem loadPanorama_ok_inv (st st' : PanoState) (pano : PanoramaInfo)
    (h : loadPanorama st pano = .ok st') :
    st'.currentPano = st.currentPano ∧
      ∃ e, e.url = pano.url ∧ st'.panoramas = mapSet st.panoramas pano.url e := by
  unfold loadPanorama at h
  split at h
  · exact absurd h (by simp)
  · injection h with h'
    subst h'
    exact ⟨rfl, _, rfl, rfl⟩

/-- One safe command preserves both registry invariants. -/
theorem step_preserves_inv (st : PanoState) (c : Cmd)
    (hk : KeyInvM st.panoramas) (hc : CurInv st) (hs : safeCmdB st c = true) :
    KeyInvM (step st c).panoramas ∧ CurInv (step st c) := by
  cases c with
  | load info =>
    show KeyInvM (stepResult (loadPanorama st info) st).panoramas ∧
      CurInv (stepResult (loadPanorama st info) st)
    cases hload : loadPanorama st info with
    | error e => simpa [stepResult, hload] using ⟨hk, hc⟩
    | ok st' =>
      obtain ⟨hcur, e, heurl, hpan⟩ := loadPanorama_ok_inv st st' info hload
      simp only [stepResult, hload]
      constructor
      · intro kv hkv
        rw [hpan] at hkv
        rcases mem_mapSet _ _ _ _ hkv with h | h
        · rw [h, heurl]
        · exact hk kv h
      · intro p hp
        rw [hcur] at hp
        have hne : p.url ≠ info.url := by
          unfold safeCmdB at hs
          rw [hp] at hs
          simpa using hs
        rw [hpan, mapGet_mapSet_ne _ _ _ _ (fun hh => hne hh.symm)]
        exact hc p hp
  | delete url =>
    show KeyInvM (deletePanorama st url).panoramas ∧ CurInv (deletePanorama st url)
    constructor
    · intro kv hkv
      exact hk kv (mem_mapDelete _ _ _ hkv)
    · intro p hp
      have hp' : st.currentPano = some p := hp
      have hne : p.url ≠ url := by
        unfold safeCmdB at hs
        rw [hp'] at hs
        simpa using hs
      show mapGet (mapDelete st.panoramas url) p.url = some p
      rw [mapGet_mapDelete_ne _ _ _ (fun hh => hne hh.symm)]
      exact hc p hp'
  | show' o =>
    show KeyInvM (stepResult (showPanorama st o) st).panoramas ∧
      CurInv (stepResult (showPanorama st o) st)
    cases hshow : showPanorama st o with
    | error e => simpa [stepResult, hshow] using ⟨hk, hc⟩
    | ok st' =>
      obtain ⟨hpan, p, hget, hcur⟩ := showPanorama_ok_inv st st' o hshow
      simp only [stepResult, hshow]
      have hpu : p.url = o.url := hk (o.url, p) (mapGet_mem _ _ _ hget)
      constructor
      · intro kv hkv
        rw [hpan] at hkv
        exact hk kv hkv
      · intro q hq
        rw [hcur] at hq
        injection hq with hq
        subst hq
        rw [hpan, hpu]
        exact hget

/-- A safe trace from a state satisfying both invariants ends in a state
satisfying both. -/
theorem run_preserves_inv (cs : List Cmd) :
    ∀ st : PanoState, KeyInvM st.panoramas → CurInv st →
      safeTraceB st cs = true →
      KeyInvM (run st cs).panoramas ∧ CurInv (run st cs) := by
  induction cs with
  | nil => exact fun st hk hc _ => ⟨hk, hc⟩
  | cons c rest ih =>
    intro st hk hc hsafe
    rw [safeTraceB, Bool.and_eq_true] at hsafe
    obtain ⟨h1, h2⟩ := hsafe
    obtain ⟨hk', hc'⟩ := step_preserves_inv st c hk hc h1
    exact ih (step st c) hk' hc' h2

/-! ### Concrete fixtures -/

/-- Payload `\x7burl:"p1"\x7d` — registration with no geo-anchor fields. -/
def p1Info : PanoramaInfo :=
  { url := "p1", longitude := none, latitude := none, height := none,
    offsetDegrees := none }

/-- Payload `\x7burl:"p2"\x7d`. -/
def p2Info : PanoramaInfo :=
  { url := "p2", longitude := none, latitude := none, height := none,
    offsetDegrees := none }

/-- Payload `\x7burl:"a.jpg", longitude:10\x7d` — longitude supplied, latitude NOT
supplied. -/
def lonOnlyInfo : PanoramaInfo :=
  { url := "a.jpg", longitude := some 10, latitude := none, height := none,
    offsetDegrees := none }

/-- The identity quaternion. -/
def idQuat : Quat := { x := 0, y := 0, z := 0, w := 1 }

/-- A 180-degree rotation about the X axis — a legitimate unit
orientation. -/
def qx180 : Quat := { x := 1, y := 0, z := 0, w := 0 }

/-! ### C1 — geo anchor presence -/

/-- Claim C1 (code_bug evaluation): a `loadPanorama` command that supplies
`longitude` but NOT `latitude`, followed by an immediate lookup of the same
url, returns an entry whose geo-derived anchor IS present (with the
unchecked latitude flowing into `Cartesian3.fromDegrees` as `undefined`),
violating the claimed "present iff both longitude and latitude were
supplied": the guard at source lines 212–213 tests `pano.longitude` twice
and never tests `pano.latitude`. -/
theorem c1_anchor_present_without_latitude :
    lonOnlyInfo.latitude = none ∧
    ((mapGet (step panoInit (Cmd.load lonOnlyInfo)).panoramas "a.jpg").map
        (fun e => (e.anchor.isSome, e.anchor.bind (fun a => a.latDeg)))) =
      some (true, none) :=
  ⟨rfl, rfl⟩

/-! ### C2 — unknown easing names -/

/-- The state after registering `"p1"`. -/
def p1State : PanoState := step panoInit (Cmd.load p1Info)

/-- A `showPanorama` request naming an easing that resolves to nothing. -/
def showBogusEasing : ShowPanoramaOptions :=
  { url := "p1",
    transition := some { easing := some "Bogus.Easing", duration := none } }

/-- Claim C2 (code_bug evaluation): the name `"Bogus.Easing"` does not resolve in
`TWEEN.Easing`, yet the `showPanorama` command succeeds and starts its fade
with `TWEEN.Easing.Linear.None`: the `|| TWEEN.Easing.Linear.None` default
at source line 270 runs before the `if (!easing) throw 'Unknown easing'`
check at line 273, so that check can never fire and no `ValidationError`
reaches the caller. -/
theorem c2_unknown_easing_silently_defaults :
    resolve (some "Bogus.Easing") tweenEasing = none ∧
    ((showPanorama p1State showBogusEasing).toOption.map
        (fun st => st.tweens.map (fun t => t.easing))) =
      some [easingLinearNone] :=
  ⟨rfl, rfl⟩

/-! ### C3 — texture load failure propagation -/

/-- Claim C3 (code_bug evaluation): the future returned from the
`loadPanorama` handler resolves when the texture fetch succeeds, but when
the fetch fails it stays pending forever instead of being rejected — the
Promise executor at source lines 226–231 passes no `onError` callback to
`loader.load` and never calls `reject`, so the failure is invisible to the
remote caller, contradicting the handler's own comment (lines 243–246). -/
theorem c3_load_failure_never_rejects :
    texturePromiseState LoadOutcome.success = PromiseState.resolved ∧
    texturePromiseState LoadOutcome.failure = PromiseState.pending ∧
    texturePromiseState LoadOutcome.failure ≠ PromiseState.rejected :=
  ⟨rfl, rfl, by decide⟩

/-! ### C4 — field-of-view clamping -/

theorem fovMin_le_fovMax : fovMin ≤ fovMax := by
  norm_num [fovMin, fovMax, mathPI]

theorem applyZoom_bounds (fov diff : ℚ) :
    fovMin ≤ applyZoom fov diff ∧ applyZoom fov diff ≤ fovMax :=
  ⟨le_min (le_max_right _ _) fovMin_le_fovMax, min_le_right _ _⟩

/-- Claim C4 (confirmed): on every tick, for every wheel or pinch delta of any
magnitude and sign, the field of view produced by the fusion step from a
starting fov within bounds stays within `[π/8, π − π/8]` (the source clamps
each adjustment at lines 121 and 127, and without an adjustment the starting
fov passes through unchanged). -/
theorem c4_fov_stays_clamped (fov : ℚ) (wheel : WheelInput) (pinch : PinchInput)
    (h1 : fovMin ≤ fov) (h2 : fov ≤ fovMax) :
    fovMin ≤ fuseFov fov wheel pinch ∧ fuseFov fov wheel pinch ≤ fovMax := by
  unfold fuseFov
  cases pinch with
  | some p => exact applyZoom_bounds _ _
  | none =>
    cases wheel with
    | some d => exact applyZoom_bounds _ _
    | none => exact ⟨h1, h2⟩

/-- Witness for C4 at a concrete in-bounds fov and concrete wheel/pinch
deltas. -/
theorem c4_fov_stays_clamped_witness :
    (fovMin ≤ fovMin ∧ fovMin ≤ fovMax) ∧
      (fovMin ≤ fuseFov fovMin (some 1000) (some (0, -3)) ∧
        fuseFov fovMin (some 1000) (some (0, -3)) ≤ fovMax) :=
  ⟨⟨le_refl fovMin, fovMin_le_fovMax⟩,
    c4_fov_stays_clamped fovMin (some 1000) (some (0, -3))
      (le_refl fovMin) fovMin_le_fovMax⟩

/-! ### C5 — the frame handler and the unset current panorama -/

/-- A plain monocular non-strict frame. -/
def monoFrame : FrameState :=
  { strict := false
    subview0 :=
      { projection := { fov := 1, aspect := 1, near := 1, far := 100 }
        viewportWidth := 100, viewportHeight := 100 }
    restSubviews := [] }

/-- Aggregator state with only a horizontal drag active. -/
def dragOnlyAgg : Aggregator :=
  { wheel := none, pinch := none, drag := some { startX := 0, endX := 10 } }

/-- Trig oracle returning `(sin(θ/2), cos(θ/2)) = (0, 1)` for every angle. -/
def zeroTrig : ℚ → ℚ × ℚ := fun _ => (0, 1)

/-- Claim C5 (counterexample): on a frame whose device orientation is absent,
with a horizontal drag active and the current-panorama pointer unset (no
panorama was ever shown), the frame-state handler does NOT complete — it
faults with a `TypeError` at the unguarded `currentPano.entity` access
(source line 132). -/
theorem c5_counterexample :
    frameTick none idQuat 1 100 monoFrame none dragOnlyAgg idQuat zeroTrig =
      .error .typeError :=
  rfl

/-- Claim C5 (amended): the frame-state handler completes without raising an
error on every per-tick frame input — including frames with absent device
orientation, active drags, and degenerate viewports — EXCEPT when device
orientation is absent, a horizontal drag is active and the current-panorama
pointer is unset, where the unguarded `currentPano.entity` access faults. -/
theorem c5_no_abort (cp : Option ℕ) (eyeOri : Quat) (currentFov viewWidth : ℚ)
    (fs : FrameState) (devOri : Option Quat) (agg : Aggregator) (relOri : Quat)
    (halfTrig : ℚ → ℚ × ℚ)
    (h : devOri.isSome = true ∨ agg.drag = none ∨ cp.isSome = true) :
    ∃ r, frameTick cp eyeOri currentFov viewWidth fs devOri agg relOri halfTrig =
      .ok r := by
  unfold frameTick
  cases hstrict : fs.strict with
  | true => exact ⟨_, rfl⟩
  | false =>
    simp only [Bool.false_eq_true, if_false]
    cases devOri with
    | some q => exact ⟨_, rfl⟩
    | none =>
      cases hdrag : agg.drag with
      | none => simp [hdrag]
      | some dm =>
        cases cp with
        | some i => simp [hdrag]
        | none =>
          rcases h with h | h | h
          · simp at h
          · rw [hdrag] at h; cases h
          · simp at h

/-- Witness for C5 (amended) at a concrete frame: orientation absent, drag
active, but a panorama has been shown. -/
theorem c5_no_abort_witness :
    ((none : Option Quat).isSome = true ∨ dragOnlyAgg.drag = none ∨
        (some 0 : Option ℕ).isSome = true) ∧
      ∃ r, frameTick (some 0) idQuat 1 100 monoFrame none dragOnlyAgg idQuat
        zeroTrig = .ok r :=
  ⟨by decide,
    c5_no_abort (some 0) idQuat 1 100 monoFrame none dragOnlyAgg idQuat zeroTrig
      (by decide)⟩

/-! ### C7 — drag yaw multiplication order -/

/-- Trig oracle standing for an angle `θ` with `sin(θ/2) = 1`,
`cos(θ/2) = 0`. -/
def halfPiTrig : ℚ → ℚ × ℚ := fun _ => (1, 0)

/-- Claim C7 (counterexample): with device orientation absent and a horizontal
drag active, the handler multiplies `Quaternion.multiply(currentOrientation,
dragYaw)` (source line 137) — the yaw is RIGHT-multiplied into the eye
orientation, not left-multiplied as claimed; at the eye orientation `qx180`
(180° about X) and a drag yaw of 180° about Y the two orders differ. -/
theorem c7_counterexample :
    ((frameTick (some 0) qx180 1 100 monoFrame none dragOnlyAgg qx180
          halfPiTrig).toOption.map (fun r => r.orientation)) =
        some (qmul qx180 (fromAxisAngleUnitY 1 0)) ∧
    qmul qx180 (fromAxisAngleUnitY 1 0) = { x := 0, y := 0, z := 1, w := 0 } ∧
    qmul (fromAxisAngleUnitY 1 0) qx180 = { x := 0, y := 0, z := -1, w := 0 } ∧
    ({ x := 0, y := 0, z := 1, w := 0 } : Quat) ≠
      { x := 0, y := 0, z := -1, w := 0 } := by
  refine ⟨rfl, ?_, ?_, ?_⟩
  · simp [qmul, qx180, fromAxisAngleUnitY]
  · simp [qmul, qx180, fromAxisAngleUnitY]
  · intro h
    injection h with hx hy hz hw
    norm_num at hz

/-- Claim C7 (amended): with device orientation absent and a horizontal drag
active (and a panorama current), the handler computes the eye orientation
relative to the current panorama's anchor entity, builds a yaw rotation of
angle `fov * (dragDeltaX / viewportWidth)`, and RIGHT-multiplies it into the
eye orientation: `result = currentOrientation * yaw`. -/
theorem c7_drag_right_multiplies (cp : ℕ) (eyeOri : Quat)
    (currentFov viewWidth : ℚ) (fs : FrameState) (agg : Aggregator)
    (dm : DragMove) (relOri : Quat) (halfTrig : ℚ → ℚ × ℚ)
    (hstrict : fs.strict = false) (hdrag : agg.drag = some dm) :
    ((frameTick (some cp) eyeOri currentFov viewWidth fs none agg relOri
        halfTrig).toOption.map (fun r => r.orientation)) =
      some (qmul relOri
        (fromAxisAngleUnitY
          (halfTrig (fuseFov currentFov agg.wheel agg.pinch *
            (dm.endX - dm.startX) / viewWidth)).1
          (halfTrig (fuseFov currentFov agg.wheel agg.pinch *
            (dm.endX - dm.startX) / viewWidth)).2)) := by
  unfold frameTick
  rw [hstrict, hdrag]
  rfl

/-- Witness for C7 (amended) at a concrete drag frame. -/
theorem c7_drag_right_multiplies_witness :
    (monoFrame.strict = false ∧ dragOnlyAgg.drag = some { startX := 0, endX := 10 }) ∧
      ((frameTick (some 0) qx180 1 100 monoFrame none dragOnlyAgg qx180
          halfPiTrig).toOption.map (fun r => r.orientation)) =
        some (qmul qx180
          (fromAxisAngleUnitY
            (halfPiTrig (fuseFov 1 dragOnlyAgg.wheel dragOnlyAgg.pinch *
              (((10 : ℚ)) - 0) / 100)).1
            (halfPiTrig (fuseFov 1 dragOnlyAgg.wheel dragOnlyAgg.pinch *
              (((10 : ℚ)) - 0) / 100)).2)) :=
  ⟨⟨rfl, rfl⟩,
    c7_drag_right_multiplies 0 qx180 1 100 monoFrame dragOnlyAgg
      { startX := 0, endX := 10 } qx180 halfPiTrig rfl rfl⟩

/-! ### C8 — per-subview projection provenance -/

/-- Written from the C8 claim's words, for comparison with the code: each
sub-view's published projection is produced by decomposing THAT sub-view's
own host-provided projection, overriding its fov with the fused value, and
recomputing the aspect from that sub-view's own viewport (fallback 1). -/
def claimedSubviewProjection (fusedFov : ℚ) (s : Subview) : Frustum :=
  { s.projection with
      fov := fusedFov
      aspect := computeAspect s.viewportWidth s.viewportHeight }

/-- A stereo frame whose second sub-view has near/far planes different from
the first's. -/
def stereoFrame : FrameState :=
  { strict := false
    subview0 :=
      { projection := { fov := 1, aspect := 1, near := 1, far := 100 }
        viewportWidth := 100, viewportHeight := 100 }
    restSubviews :=
      [ { projection := { fov := 1, aspect := 1, near := 5, far := 500 }
          viewportWidth := 200, viewportHeight := 100 } ] }

/-- Aggregator with no active gesture. -/
def quietAgg : Aggregator := { wheel := none, pinch := none, drag := none }

/-- Claim C8 (counterexample): the handler decomposes only `subviews[0]`'s
projection (source line 115); on a stereo frame whose second sub-view has
near/far `(5, 500)`, the published second projection carries the FIRST
sub-view's near/far `(1, 100)`, not the values the claim's per-sub-view
decomposition would give. -/
theorem c8_counterexample :
    ((frameTick none idQuat 1 100 stereoFrame none quietAgg idQuat
        zeroTrig).toOption.map
        (fun r => r.projections.map (fun p => (p.near, p.far)))) =
      some [(1, 100), (1, 100)] ∧
    (stereoFrame.subviews.map (fun s =>
        ((claimedSubviewProjection (fuseFov 1 none none) s).near,
          (claimedSubviewProjection (fuseFov 1 none none) s).far))) =
      [(1, 100), (5, 500)] ∧
    ((1 : ℚ), (100 : ℚ)) ≠ ((5 : ℚ), (500 : ℚ)) := by
  refine ⟨rfl, rfl, ?_⟩
  intro h
  injection h with h1 h2
  norm_num at h1

/-- Claim C8 (amended): on every non-strict tick the handler decomposes
sub-view 0's host projection once; each sub-view's published projection then
carries the fused fov, sub-view 0's near and far planes, and an aspect
recomputed from that sub-view's own viewport (falling back to 1.0 when the
viewport yields a non-finite or zero aspect). -/
theorem c8_projections_from_subview0 (cp : Option ℕ) (eyeOri : Quat)
    (currentFov viewWidth : ℚ) (fs : FrameState) (devOri : Option Quat)
    (agg : Aggregator) (relOri : Quat) (halfTrig : ℚ → ℚ × ℚ) (r : TickResult)
    (hstrict : fs.strict = false)
    (hok : frameTick cp eyeOri currentFov viewWidth fs devOri agg relOri
      halfTrig = .ok r) :
    r.projections = fs.subviews.map (fun s =>
      { fov := fuseFov currentFov agg.wheel agg.pinch
        aspect := computeAspect s.viewportWidth s.viewportHeight
        near := fs.subview0.projection.near
        far := fs.subview0.projection.far }) := by
  unfold frameTick at hok
  rw [hstrict] at hok
  simp only [Bool.false_eq_true, if_false] at hok
  rcases devOri with _ | q
  · rcases hdrag : agg.drag with _ | dm
    · rw [hdrag] at hok
      injection hok with hok
      subst hok
      rfl
    · rw [hdrag] at hok
      rcases cp with _ | i
      · exact absurd hok (by simp)
      · injection hok with hok
        subst hok
        rfl
  · injection hok with hok
    subst hok
    rfl

/-- Witness for C8 (amended) at the concrete stereo frame. -/
theorem c8_projections_from_subview0_witness :
    (stereoFrame.strict = false ∧
      frameTick none idQuat 1 100 stereoFrame none quietAgg idQuat zeroTrig =
        .ok { projections :=
                stereoFrame.subviews.map (fun s =>
                  { fov := fuseFov 1 none none
                    aspect := computeAspect s.viewportWidth s.viewportHeight
                    near := 1
                    far := 100 })
              orientation := idQuat }) ∧
    ({ projections :=
         stereoFrame.subviews.map (fun s =>
           { fov := fuseFov 1 none none
             aspect := computeAspect s.viewportWidth s.viewportHeight
             near := 1
             far := 100 })
       orientation := idQuat } : TickResult).projections =
      stereoFrame.subviews.map (fun s =>
        { fov := fuseFov 1 none none
          aspect := computeAspect s.viewportWidth s.viewportHeight
          near := stereoFrame.subview0.projection.near
          far := stereoFrame.subview0.projection.far }) :=
  ⟨⟨rfl, rfl⟩,
    c8_projections_from_subview0 none idQuat 1 100 stereoFrame none quietAgg
      idQuat zeroTrig _ rfl rfl⟩

/-! ### C6 — the current-panorama / registry identity -/

/-- Register `"p1"`, show it, then re-register `"p1"` (overwrite semantics);
no delete occurs anywhere. -/
def reRegisterCmds : List Cmd :=
  [ Cmd.load p1Info,
    Cmd.show' { url := "p1", transition := none },
    Cmd.load p1Info ]

/-- Claim C6 (counterexample): after `load "p1"; show "p1"; load "p1"` — a
sequence that never deletes the shown url — the current-panorama pointer
still holds the entry created by the FIRST registration while the registry
holds the fresh entry created by the second one (each `loadPanorama` builds
a fresh entity/promise/entry object, source lines 211–241), so the pointer
and the registry entry are not identical, refuting the claim's
re-registration clause. -/
theorem c6_counterexample :
    noDeleteTraceB panoInit reRegisterCmds = true ∧
    currentMatchesRegistryB (run panoInit reRegisterCmds) = false ∧
    ((run panoInit reRegisterCmds).currentPano.map (fun p => p.id)) = some 0 ∧
    ((mapGet (run panoInit reRegisterCmds).panoramas "p1").map (fun p => p.id)) =
      some 1 := by
  refine ⟨rfl, ?_, rfl, rfl⟩
  decide

/-- Claim C6 (amended): after every sequence of `loadPanorama`,
`deletePanorama` and `showPanorama` commands that never deletes AND never
re-registers the currently-shown url, the current-panorama pointer, when
set, refers to the very entry stored in the registry under its url
(re-registering the currently shown url instead replaces the registry entry
while the pointer keeps the old object). -/
theorem c6_current_in_registry (cs : List Cmd)
    (h : safeTraceB panoInit cs = true) :
    currentMatchesRegistryB (run panoInit cs) = true := by
  have hinit1 : KeyInvM panoInit.panoramas := by
    intro kv hkv
    simp [panoInit] at hkv
  have hinit2 : CurInv panoInit := by
    intro p hp
    simp [panoInit] at hp
  obtain ⟨-, hc⟩ := run_preserves_inv cs panoInit hinit1 hinit2 h
  unfold currentMatchesRegistryB
  cases hcur : (run panoInit cs).currentPano with
  | none => rfl
  | some p => exact decide_eq_true (hc p hcur)

/-- A safe command sequence: register two panoramas, show each, then delete
the one that is no longer shown. -/
def safeCmdsExample : List Cmd :=
  [ Cmd.load p1Info,
    Cmd.show' { url := "p1", transition := none },
    Cmd.load p2Info,
    Cmd.show' { url := "p2",
                transition := some { easing := some "Quadratic.InOut",
                                     duration := some 1000 } },
    Cmd.delete "p1" ]

/-- Witness for C6 (amended) on a concrete safe sequence. -/
theorem c6_current_in_registry_witness :
    safeTraceB panoInit safeCmdsExample = true ∧
    currentMatchesRegistryB (run panoInit safeCmdsExample) = true :=
  ⟨by decide, c6_current_in_registry safeCmdsExample (by decide)⟩

/-! ### C9 — show on an unregistered url -/

/-- Claim C9 (confirmed): a `showPanorama` call carrying a (non-missing) url
that is not present in the registry throws the `NotFoundError` of source
line 277 and performs no mutation at all: the current-panorama pointer, the
virtual eye anchor, both mesh slots, the active slot index — the whole
module state — are exactly as before. -/
theorem c9_show_unknown_url (st : PanoState) (o : ShowPanoramaOptions)
    (hurl : o.url ≠ "") (habs : mapGet st.panoramas o.url = none) :
    showPanorama st o = .error (.notFound o.url) ∧ step st (Cmd.show' o) = st := by
  have h1 : showPanorama st o = .error (.notFound o.url) := by
    unfold showPanorama
    simp [hurl, jsTruthy, habs]
  exact ⟨h1, by simp [step, stepResult, h1]⟩

/-- Witness for C9: showing an unregistered url on the state that only knows
`"p1"`. -/
theorem c9_show_unknown_url_witness :
    (("nope" : String) ≠ "" ∧ mapGet p1State.panoramas "nope" = none) ∧
      (showPanorama p1State { url := "nope", transition := none } =
          .error (.notFound "nope") ∧
        step p1State (Cmd.show' { url := "nope", transition := none }) = p1State) :=
  ⟨⟨by decide, by decide⟩,
    c9_show_unknown_url p1State { url := "nope", transition := none }
      (by decide) (by decide)⟩

/-! ### C10 — the two-panorama transition scenario -/

/-- Register `"p1"` and `"p2"`, show `"p1"`, then show `"p2"` with a
1000 ms `Quadratic.InOut` transition. -/
def transitionScenarioCmds : List Cmd :=
  [ Cmd.load p1Info,
    Cmd.load p2Info,
    Cmd.show' { url := "p1",
                transition := some { easing := none, duration := some 0 } },
    Cmd.show' { url := "p2",
                transition := some { easing := some "Quadratic.InOut",
                                     duration := some 1000 } } ]

def transitionScenarioFinal : PanoState := run panoInit transitionScenarioCmds

/-- Claim C10 (confirmed): after `load p1; load p2; show p1; show p2
(duration 1000)`:
the active slot index has toggled back to `0`; slot 1 — the sphere that
`show p1` bound to panorama `p1` (texture handle 0) — is the outgoing slot:
the single live tween animates its material from the re-set opacity `1` to
`0` over the requested `1000`; slot 0 — bound to `p2` (texture handle 1) —
is the incoming slot with opacity fixed at `1` and no tween on it; the
incoming sphere's scale is `(-1,1,1)` and the outgoing sphere's is
`(-0.9,0.9,0.9)`; and the incoming sphere draws before the outgoing one
(render order `0 < 1`). -/
theorem c10_transition_scenario :
    transitionScenarioFinal.currentSphere = 0 ∧
    ((transitionScenarioFinal.currentPano.map (fun p => p.url)) = some "p2") ∧
    (getSphere transitionScenarioFinal 1).pendingBindings = [0] ∧
    (getSphere transitionScenarioFinal 0).pendingBindings = [1] ∧
    (transitionScenarioFinal.tweens.map
        (fun t => (t.targetSphere, t.toOpacity, t.duration))) =
      [(1, 0, some 1000)] ∧
    (getSphere transitionScenarioFinal 1).material.opacity = 1 ∧
    (getSphere transitionScenarioFinal 0).material.opacity = 1 ∧
    (getSphere transitionScenarioFinal 0).material.map = none ∧
    (getSphere transitionScenarioFinal 0).scale = (-1, 1, 1) ∧
    (getSphere transitionScenarioFinal 1).scale = (-(9 / 10), 9 / 10, 9 / 10) ∧
    (getSphere transitionScenarioFinal 0).renderOrder <
      (getSphere transitionScenarioFinal 1).renderOrder :=
  ⟨rfl, rfl, rfl, rfl, rfl, rfl, rfl, rfl, rfl, rfl, by decide⟩

end PanoReality
